import Mathlib

/-!
Verification development for the OpenDisplay bootloader update tool
(src/tools/update_bootloader.py).  The script is embedded shallowly:
Python strings become `List Char`, the GitHub release JSON becomes a list
of `Asset` records, every effectful interaction (HTTP fetch, download,
`input()` prompts, serial-port enumeration, the adafruit-nrfutil
subprocess) is supplied by an `Env` record describing what the outside
world answers, and `main` becomes the pure function `mainModel` that
returns the ordered trace of external events, the process exit outcome,
and whether the temporary download directory was created / removed.
-/

set_option linter.unusedVariables false

namespace UpdateBootloader

/-- Models Python `needle_startswith`: `strStartsWith needle hay` is true when
`hay` starts with `needle` (used to build substring containment). -/
def strStartsWith : List Char → List Char → Bool
  | [], _ => true
  | _ :: _, [] => false
  | a :: as, b :: bs => a == b && strStartsWith as bs

/-- Models the Python expression `needle in hay` on strings. -/
def strContains (needle : List Char) : List Char → Bool
  | [] => needle.isEmpty
  | c :: rest => strStartsWith needle (c :: rest) || strContains needle rest

/-- Models Python `hay.endswith(suffix)`. -/
def strEndsWith (sfx hay : List Char) : Bool :=
  strStartsWith sfx.reverse hay.reverse

/-- Models Python `s.lower()` (asset names are ASCII). -/
def pyLower (s : List Char) : List Char := s.map Char.toLower

/-- Board variants accepted by `--board` (argparse choices, line 434-439). -/
inductive Board
  | sense
  | standard
deriving DecidableEq

/-- The `BOARD_ASSET_NAMES` dict (lines 51-54): the name fragment used to
match GitHub release assets for each board variant. -/
def BOARD_ASSET_NAMES : Board → List Char
  | Board.sense => ("xiao_nrf52840_ble_sense_bootloader").toList
  | Board.standard => ("xiao_nrf52840_ble_bootloader").toList

/-- One GitHub release asset as consumed by the script (only the `name`
and `browser_download_url` fields are read, lines 346-351). -/
structure Asset where
  name : List Char
  url : List Char := []
deriving DecidableEq

/-- The asset-matching test of the resolver loop (line 348):
`board_name in name and name.endswith(".zip")`. -/
def assetMatches (board : Board) (a : Asset) : Bool :=
  strContains (BOARD_ASSET_NAMES board) a.name && strEndsWith (".zip").toList a.name

/-- The resolver scan (lines 346-351): iterate the assets in listed order
and break at the first one satisfying `assetMatches`. -/
def findAsset (board : Board) : List Asset → Option Asset
  | [] => none
  | a :: rest => if assetMatches board a then some a else findAsset board rest

/-- The near-miss filter of the failure diagnostic (lines 356-358): an
asset is printed when `"xiao" in asset.get("name", "").lower()`. -/
def mentionsXiao (a : Asset) : Bool :=
  strContains ("xiao").toList (pyLower a.name)

/-- The list of names printed by the `No .zip asset found` diagnostic
(lines 353-359), in listed order. -/
def nearMisses (assets : List Asset) : List (List Char) :=
  (assets.filter mentionsXiao).map Asset.name

/-- Outcome of the release-metadata step of `download_dfu_package`
(lines 315-337): the `requests` library may be missing (ImportError at
line 316), the GET may raise (line 332), or it returns a release with a
tag and an ordered asset list. -/
inductive FetchResult
  | importErrorRequests
  | requestError
  | ok (tag : List Char) (assets : List Asset)

/-- What `input()` yields at an interactive prompt: a line of text, or a
KeyboardInterrupt (Ctrl+C). -/
inductive PromptInput
  | entered (s : List Char)
  | keyboardInterrupt

/-- Outcome of the `subprocess.run(cmd, timeout=120)` call (lines
559-566): normal completion with a return code, `TimeoutExpired`, or an
OS-level failure to start the executable. -/
inductive TransferResult
  | completed (returncode : Int)
  | timedOut
  | execFailed

/-- The external world as observed by one invocation of `main`:
whether `find_nrfutil` locates a binary, which local files exist, what
the GitHub API answers, whether the asset download succeeds, what the two
interactive prompts receive, which serial ports `find_serial_ports`
enumerates, and how the flashing subprocess ends. -/
structure Env where
  nrfutilFound : Bool
  pkgExists : List Char → Bool
  fetch : FetchResult
  downloadOk : Bool
  bootPrompt : PromptInput
  ports : List (List Char)
  portPrompt : PromptInput
  transfer : TransferResult

/-- The command-line arguments consumed by `main` (lines 434-452).
`none` models the argparse default `None`; Python code tests the values
for truthiness, which `optTruthy` reproduces. -/
structure Args where
  board : Board
  port : Option (List Char)
  pkg : Option (List Char)

/-- Python truthiness of an optional string (`if args.pkg:` at line 469,
`if args.port:` at line 498): `None` and the empty string are falsy. -/
def optTruthy : Option (List Char) → Option (List Char)
  | none => none
  | some s => if s.isEmpty then none else some s

/-- Externally observable events of a run, in program order. -/
inductive Event
  | networkFetch
  | networkDownload
  | promptBootloader
  | enumeratePorts
  | promptPortSelection (listed : List (List Char))
  | printNearMisses (names : List (List Char))
  | printDiag (msg : List Char)
  | runTransfer (pkg port : List Char) (timeoutSec : Nat)
deriving DecidableEq

/-- How the process terminates: `sys.exit(n)` / normal return (exit code
`n`), or an exception (the uncaught KeyboardInterrupt at line 494)
propagating past `main`. -/
inductive ExitOutcome
  | exitCode (n : Nat)
  | uncaughtInterrupt
deriving DecidableEq

/-- Result of one modeled invocation: the event trace, the termination
outcome, and the temporary-directory lifecycle flags (`tmp_dir` created
at line 478; removed by the `finally` block at lines 587-589). -/
structure RunResult where
  events : List Event
  exit : ExitOutcome
  tmpDirCreated : Bool
  tmpDirRemoved : Bool
deriving DecidableEq

/-- Abstract path of the `tempfile.mkdtemp(prefix="opendisplay_bl_")`
directory; the downloaded package lands at this directory joined with
the asset name (line 369). -/
def tmpDirPath : List Char := ("/tmp/opendisplay_bl_x/").toList

/-- Outcome of `download_dfu_package` (lines 313-373): every failure path
calls `sys.exit(1)` directly, which happens before `main`'s try/finally
is entered, so the events produced so far are recorded and the function
reports failure; on success it returns the downloaded package path. -/
inductive ResolveOutcome
  | failed (events : List Event)
  | got (events : List Event) (pkgPath : List Char)

/-- Model of `download_dfu_package(board_type, dest_dir)` (lines 313-373):
missing `requests` exits before any network call; a metadata fetch error
exits after the fetch; no matching asset prints the xiao near-miss list
and exits; a download error exits after the content GET; otherwise the
asset is written into the temp directory. -/
def download_dfu_package (board : Board) (env : Env) : ResolveOutcome :=
  match env.fetch with
  | FetchResult.importErrorRequests => ResolveOutcome.failed []
  | FetchResult.requestError => ResolveOutcome.failed [Event.networkFetch]
  | FetchResult.ok _ assets =>
    match findAsset board assets with
    | none =>
      ResolveOutcome.failed [Event.networkFetch, Event.printNearMisses (nearMisses assets)]
    | some a =>
      if env.downloadOk then
        ResolveOutcome.got [Event.networkFetch, Event.networkDownload] (tmpDirPath ++ a.name)
      else
        ResolveOutcome.failed [Event.networkFetch, Event.networkDownload]

/-- Models Python `str.strip()` for the port-selection input (line 525). -/
def pyStrip (s : List Char) : List Char :=
  ((s.dropWhile Char.isWhitespace).reverse.dropWhile Char.isWhitespace).reverse

/-- Accumulator loop for decimal digit parsing. -/
def digitsValAux : Nat → List Char → Option Nat
  | acc, [] => some acc
  | acc, c :: rest =>
    if c.isDigit then digitsValAux (acc * 10 + (c.toNat - ('0').toNat)) rest
    else none

/-- Value of a nonempty all-digit string, else `none`. -/
def digitsVal : List Char → Option Nat
  | [] => none
  | c :: rest => digitsValAux 0 (c :: rest)

/-- Models Python `int(s)` on an already-stripped string for the forms the
script can receive: an optional sign followed by decimal digits
(exotic forms such as underscore digit grouping are out of scope);
`none` models the `ValueError` caught at line 527. -/
def pyInt (s : List Char) : Option Int :=
  match s with
  | '-' :: rest => (digitsVal rest).map (fun n => -(n : Int))
  | '+' :: rest => (digitsVal rest).map (fun n => (n : Int))
  | _ => (digitsVal s).map (fun n => (n : Int))

/-- Models Python list indexing `xs[i]` with negative-index support;
`none` models the `IndexError` caught at line 527. -/
def pyIndex {α : Type} (xs : List α) (i : Int) : Option α :=
  if 0 ≤ i then xs[i.toNat]?
  else if i.natAbs ≤ xs.length then xs[xs.length - i.natAbs]? else none

/-- The whole port-selection expression `ports[int(choice.strip())]`
(lines 525-526), `none` when either step raises. -/
def pyChoice (ports : List (List Char)) (raw : List Char) : Option (List Char) :=
  match pyInt (pyStrip raw) with
  | none => none
  | some i => pyIndex ports i

/-- The `timeout=120` argument of `subprocess.run` (line 560). -/
def DFU_TIMEOUT_SECONDS : Nat := 120

/-- The timeout diagnostic printed at line 562. -/
def dfuTimeoutMsg : List Char := ("\n  ERROR: DFU timed out after 120 seconds.").toList

/-- Decimal rendering of a Python integer (for the f-string at line 569). -/
def intChars : Int → List Char
  | Int.ofNat n => Nat.toDigits 10 n
  | Int.negSucc n => '-' :: Nat.toDigits 10 (n + 1)

/-- The fixed part of the nonzero-exit diagnostic at line 569. -/
def dfuFailedPre : List Char := ("\n  ERROR: DFU failed (exit code ").toList

/-- The nonzero-exit diagnostic `ERROR: DFU failed (exit code {rc}).`
printed at line 569. -/
def dfuFailedMsg (rc : Int) : List Char :=
  dfuFailedPre ++ (intChars rc ++ (").").toList)

/-- The diagnostic for an OSError launching nrfutil (line 565); the
f-string tail (binary name and errno text) is irrelevant to every claim
and abstracted away. -/
def execFailedMsg : List Char := ("\n  ERROR: Failed to run adafruit-nrfutil").toList

/-- Step 5 of `main` (lines 548-573): run the flashing subprocess with a
120-second timeout; `TimeoutExpired` and a nonzero return code print
different diagnostics and both `sys.exit(1)`; return code 0 falls
through to the success epilogue (exit 0). -/
def flashStep (env : Env) (pkgPath port : List Char) : List Event × ExitOutcome :=
  match env.transfer with
  | TransferResult.timedOut =>
    ([Event.runTransfer pkgPath port DFU_TIMEOUT_SECONDS, Event.printDiag dfuTimeoutMsg],
      ExitOutcome.exitCode 1)
  | TransferResult.execFailed =>
    ([Event.runTransfer pkgPath port DFU_TIMEOUT_SECONDS, Event.printDiag execFailedMsg],
      ExitOutcome.exitCode 1)
  | TransferResult.completed rc =>
    if rc ≠ 0 then
      ([Event.runTransfer pkgPath port DFU_TIMEOUT_SECONDS, Event.printDiag (dfuFailedMsg rc)],
        ExitOutcome.exitCode 1)
    else
      ([Event.runTransfer pkgPath port DFU_TIMEOUT_SECONDS], ExitOutcome.exitCode 0)

/-- Step 4 of `main` (lines 497-533): a user-supplied (truthy) `--port`
is used directly; otherwise ports are enumerated: zero ports exit 1, one
port is auto-selected, several ports print an indexed list and ask for a
selection, where Ctrl+C (caught, line 530), a `ValueError`, or an
`IndexError` (line 527) all exit 1.  Returns the emitted events and the
selected port (`none` means `sys.exit(1)` in this step). -/
def portStep (args : Args) (env : Env) : List Event × Option (List Char) :=
  match optTruthy args.port with
  | some p => ([], some p)
  | none =>
    match env.ports with
    | [] => ([Event.enumeratePorts], none)
    | [p] => ([Event.enumeratePorts], some p)
    | p₁ :: p₂ :: rest =>
      match env.portPrompt with
      | PromptInput.keyboardInterrupt =>
        ([Event.enumeratePorts, Event.promptPortSelection (p₁ :: p₂ :: rest)], none)
      | PromptInput.entered s =>
        ([Event.enumeratePorts, Event.promptPortSelection (p₁ :: p₂ :: rest)],
          pyChoice (p₁ :: p₂ :: rest) s)

/-- The body of the `try` block of `main` (lines 481-585): the
enter-bootloader-mode prompt (line 494, KeyboardInterrupt NOT caught
there, so it propagates), then port selection, then flashing. -/
def tryBlock (args : Args) (env : Env) (pkgPath : List Char) : List Event × ExitOutcome :=
  match env.bootPrompt with
  | PromptInput.keyboardInterrupt => ([Event.promptBootloader], ExitOutcome.uncaughtInterrupt)
  | PromptInput.entered _ =>
    match portStep args env with
    | (evs, none) => (Event.promptBootloader :: evs, ExitOutcome.exitCode 1)
    | (evs, some port) =>
      (Event.promptBootloader :: (evs ++ (flashStep env pkgPath port).1),
        (flashStep env pkgPath port).2)

/-- Model of `main()` (lines 416-589).  Step 1 checks for adafruit-nrfutil
and exits 1 when absent.  Step 2 either validates a local `--pkg` path
(exit 1 when missing, no temp dir, no network) or creates the temp dir
(line 478) and calls `download_dfu_package` (line 479) — note both happen
BEFORE the `try` at line 481, so a resolution failure terminates without
running the `finally` cleanup at lines 587-589.  Once `tryBlock` is
entered, every exit path (including the uncaught KeyboardInterrupt) runs
the `finally`, which removes the temp dir when it was created. -/
def mainModel (args : Args) (env : Env) : RunResult :=
  if env.nrfutilFound = false then
    { events := [], exit := ExitOutcome.exitCode 1, tmpDirCreated := false, tmpDirRemoved := false }
  else
    match optTruthy args.pkg with
    | some p =>
      if env.pkgExists p = false then
        { events := [], exit := ExitOutcome.exitCode 1,
          tmpDirCreated := false, tmpDirRemoved := false }
      else
        { events := (tryBlock args env p).1, exit := (tryBlock args env p).2,
          tmpDirCreated := false, tmpDirRemoved := false }
    | none =>
      match download_dfu_package args.board env with
      | ResolveOutcome.failed evs =>
        { events := evs, exit := ExitOutcome.exitCode 1,
          tmpDirCreated := true, tmpDirRemoved := false }
      | ResolveOutcome.got evs pkgPath =>
        { events := evs ++ (tryBlock args env pkgPath).1, exit := (tryBlock args env pkgPath).2,
          tmpDirCreated := true, tmpDirRemoved := true }

/-- The argparse `--board` option (lines 434-439): choices `sense` and
`standard`, default `sense` when the flag is absent. -/
def parseBoardArg : Option (List Char) → Option Board
  | none => some Board.sense
  | some s =>
    if s = ("sense").toList then some Board.sense
    else if s = ("standard").toList then some Board.standard
    else none

/-- Run the tool from a raw `--board` argument: argparse resolves the
board (rejecting unknown values) and `main` runs with the result. -/
def runWithBoardArg (boardArg : Option (List Char)) (port pkg : Option (List Char))
    (env : Env) : Option RunResult :=
  (parseBoardArg boardArg).map fun b => mainModel { board := b, port := port, pkg := pkg } env

/-- Event classifier: release-metadata or asset-content network calls. -/
def isNetworkEvent : Event → Bool
  | Event.networkFetch => true
  | Event.networkDownload => true
  | _ => false

/-- Whether a trace performs any network call. -/
def hasNetwork (evs : List Event) : Bool := evs.any isNetworkEvent

/-- Event classifier: the `find_serial_ports()` enumeration call. -/
def isEnumerateEvent : Event → Bool
  | Event.enumeratePorts => true
  | _ => false

/-- Whether a trace enumerates serial ports. -/
def hasEnumerate (evs : List Event) : Bool := evs.any isEnumerateEvent

/-- Package path of a transfer event. -/
def transferPkgOf : Event → Option (List Char)
  | Event.runTransfer pk _ _ => some pk
  | _ => none

/-- Package paths handed to the flashing subprocess, in order. -/
def transferPkgs (evs : List Event) : List (List Char) := evs.filterMap transferPkgOf

/-- Serial port of a transfer event. -/
def transferPortOf : Event → Option (List Char)
  | Event.runTransfer _ pt _ => some pt
  | _ => none

/-- Serial ports handed to the flashing subprocess, in order. -/
def transferPorts (evs : List Event) : List (List Char) := evs.filterMap transferPortOf

/-- Timeout bound of a transfer event. -/
def transferTimeoutOf : Event → Option Nat
  | Event.runTransfer _ _ t => some t
  | _ => none

/-- Timeout bounds applied to the flashing subprocess, in order. -/
def transferTimeouts (evs : List Event) : List Nat := evs.filterMap transferTimeoutOf

/-- Payload of a printed failure diagnostic. -/
def diagOf : Event → Option (List Char)
  | Event.printDiag m => some m
  | _ => none

/-- Failure diagnostics printed during a trace, in order. -/
def diagPrints (evs : List Event) : List (List Char) := evs.filterMap diagOf

/-- Payload of a printed near-miss asset listing. -/
def nearMissOf : Event → Option (List (List Char))
  | Event.printNearMisses ns => some ns
  | _ => none

/-- Near-miss listings printed during a trace, in order. -/
def nearMissPrints (evs : List Event) : List (List (List Char)) := evs.filterMap nearMissOf

/-- Payload of an indexed port-selection listing. -/
def portPromptOf : Event → Option (List (List Char))
  | Event.promptPortSelection l => some l
  | _ => none

/-- Indexed port listings presented during a trace, in order. -/
def portPrompts (evs : List Event) : List (List (List Char)) := evs.filterMap portPromptOf

/-- Hypothesis bundle: the run gets past package preparation (step 2),
either through an existing truthy local `--pkg` override or through a
successful download of a matching release asset. -/
def resolves (args : Args) (env : Env) : Prop :=
  env.nrfutilFound = true ∧
  ((∃ p, optTruthy args.pkg = some p ∧ env.pkgExists p = true) ∨
    (optTruthy args.pkg = none ∧ ∃ tag assets a,
      env.fetch = FetchResult.ok tag assets ∧
      findAsset args.board assets = some a ∧ env.downloadOk = true))

/-- A trace prefix that contains no transfer, diagnostic, enumeration,
prompt, or near-miss events (the resolution-phase events). -/
def preTransferFree (pre : List Event) : Prop :=
  transferPkgs pre = [] ∧ transferPorts pre = [] ∧ transferTimeouts pre = [] ∧
  diagPrints pre = [] ∧ nearMissPrints pre = [] ∧ hasEnumerate pre = false ∧
  portPrompts pre = []

/-- Concrete asset names used across the development: the release pair
from the spec's disambiguation scenario and a realistic Sense `.zip`
combined package. -/
def stdUf2Name : List Char := ("update-xiao_nrf52840_ble_bootloader-1.2.3_nosd.uf2").toList

/-- The Sense counterpart of `stdUf2Name`. -/
def senseUf2Name : List Char :=
  ("update-xiao_nrf52840_ble_sense_bootloader-1.2.3_nosd.uf2").toList

/-- A realistic Sense combined-package archive asset name. -/
def senseZipName : List Char := ("xiao_nrf52840_ble_sense_bootloader-0.9.2_s140_7.3.0.zip").toList

/-- The Sense combined-package asset. -/
def senseZipAsset : Asset := { name := senseZipName }

/-- The Standard `.uf2` asset of the disambiguation scenario. -/
def stdUf2Asset : Asset := { name := stdUf2Name }

/-- Arguments of a plain `python update_bootloader.py` run. -/
def argsNoOverride : Args := { board := Board.sense, port := none, pkg := none }

/-- A baseline fully-successful environment: tool found, a matching Sense
release asset downloadable, the user presses Enter, one serial port, and
the flashing subprocess succeeds. -/
def baseEnv : Env :=
  { nrfutilFound := true, pkgExists := fun _ => true,
    fetch := FetchResult.ok (("0.9.2").toList) [senseZipAsset], downloadOk := true,
    bootPrompt := PromptInput.entered [], ports := [("/dev/ttyACM0").toList],
    portPrompt := PromptInput.entered (("0").toList),
    transfer := TransferResult.completed 0 }

/-- Environment where the GitHub metadata GET raises. -/
def envFetchError : Env := { baseEnv with fetch := FetchResult.requestError }

/-- Environment where the `requests` library is missing. -/
def envImportError : Env := { baseEnv with fetch := FetchResult.importErrorRequests }

/-- Environment whose release contains only the Standard `.uf2` asset, so
a Sense run finds no matching `.zip` asset. -/
def envNoMatch : Env := { baseEnv with fetch := FetchResult.ok (("1.2.3").toList) [stdUf2Asset] }

/-- Environment where the asset-content GET fails. -/
def envDownloadFail : Env := { baseEnv with downloadOk := false }

/-- Environment where adafruit-nrfutil is not found. -/
def envNoTool : Env := { baseEnv with nrfutilFound := false }

/-- Environment with two candidate ports where the user hits Ctrl+C at
the port-selection prompt. -/
def envCancelAtPortPrompt : Env :=
  { baseEnv with
    ports := [("/dev/ttyACM0").toList, ("/dev/ttyACM1").toList],
    portPrompt := PromptInput.keyboardInterrupt }

/-- Environment with two candidate ports, port 0 selected, where the
flashing subprocess exits with a nonzero code (a FAILED outcome). -/
def envTransferFailed : Env :=
  { baseEnv with
    ports := [("/dev/ttyACM0").toList, ("/dev/ttyACM1").toList],
    transfer := TransferResult.completed 1 }

/-- Environment with two candidate ports where the user types `1`. -/
def envTwoPortsPickSecond : Env :=
  { baseEnv with
    ports := [("/dev/ttyACM0").toList, ("/dev/ttyACM1").toList],
    portPrompt := PromptInput.entered (("1").toList) }

/-- Environment with two candidate ports where the user types `-1`. -/
def envTwoPortsPickLast : Env :=
  { baseEnv with
    ports := [("/dev/ttyACM0").toList, ("/dev/ttyACM1").toList],
    portPrompt := PromptInput.entered (("-1").toList) }

/-- Environment where the flashing subprocess exceeds its timeout. -/
def envTimeout : Env := { baseEnv with transfer := TransferResult.timedOut }

/-- A local package path that does not end in the `.zip` suffix. -/
def pkgBinPath : List Char := ("bootloader.bin").toList

/-- Arguments using a local `--pkg` override (note: not a `.zip` name). -/
def argsLocalPkg : Args := { board := Board.sense, port := none, pkg := some pkgBinPath }

/-- Arguments using both a local package and an explicit `--port`. -/
def argsPkgAndPort : Args :=
  { board := Board.sense, port := some (("COM3").toList), pkg := some pkgBinPath }

theorem optTruthy_of_ne (q : List Char) (h : q ≠ []) : optTruthy (some q) = some q := by
  cases q with
  | nil => exact absurd rfl h
  | cons c cs => rfl

theorem transferPkgs_append (l₁ l₂ : List Event) :
    transferPkgs (l₁ ++ l₂) = transferPkgs l₁ ++ transferPkgs l₂ :=
  List.filterMap_append l₁ l₂ transferPkgOf

theorem transferPorts_append (l₁ l₂ : List Event) :
    transferPorts (l₁ ++ l₂) = transferPorts l₁ ++ transferPorts l₂ :=
  List.filterMap_append l₁ l₂ transferPortOf

theorem transferTimeouts_append (l₁ l₂ : List Event) :
    transferTimeouts (l₁ ++ l₂) = transferTimeouts l₁ ++ transferTimeouts l₂ :=
  List.filterMap_append l₁ l₂ transferTimeoutOf

theorem diagPrints_append (l₁ l₂ : List Event) :
    diagPrints (l₁ ++ l₂) = diagPrints l₁ ++ diagPrints l₂ :=
  List.filterMap_append l₁ l₂ diagOf

theorem portPrompts_append (l₁ l₂ : List Event) :
    portPrompts (l₁ ++ l₂) = portPrompts l₁ ++ portPrompts l₂ :=
  List.filterMap_append l₁ l₂ portPromptOf

theorem hasNetwork_append (l₁ l₂ : List Event) :
    hasNetwork (l₁ ++ l₂) = (hasNetwork l₁ || hasNetwork l₂) := by
  simp [hasNetwork]

theorem hasEnumerate_append (l₁ l₂ : List Event) :
    hasEnumerate (l₁ ++ l₂) = (hasEnumerate l₁ || hasEnumerate l₂) := by
  simp [hasEnumerate]

theorem portStep_supplied (args : Args) (env : Env) (q : List Char)
    (h : optTruthy args.port = some q) : portStep args env = ([], some q) := by
  simp [portStep, h]

theorem portStep_none_nil (args : Args) (env : Env)
    (h : optTruthy args.port = none) (h2 : env.ports = []) :
    portStep args env = ([Event.enumeratePorts], none) := by
  simp [portStep, h, h2]

theorem portStep_none_single (args : Args) (env : Env) (q : List Char)
    (h : optTruthy args.port = none) (h2 : env.ports = [q]) :
    portStep args env = ([Event.enumeratePorts], some q) := by
  simp [portStep, h, h2]

theorem portStep_multi_interrupt (args : Args) (env : Env) (q₁ q₂ : List Char)
    (rest : List (List Char))
    (h : optTruthy args.port = none) (h2 : env.ports = q₁ :: q₂ :: rest)
    (h3 : env.portPrompt = PromptInput.keyboardInterrupt) :
    portStep args env =
      ([Event.enumeratePorts, Event.promptPortSelection (q₁ :: q₂ :: rest)], none) := by
  simp [portStep, h, h2, h3]

theorem portStep_multi_entered (args : Args) (env : Env) (q₁ q₂ : List Char)
    (rest : List (List Char)) (s : List Char)
    (h : optTruthy args.port = none) (h2 : env.ports = q₁ :: q₂ :: rest)
    (h3 : env.portPrompt = PromptInput.entered s) :
    portStep args env =
      ([Event.enumeratePorts, Event.promptPortSelection (q₁ :: q₂ :: rest)],
        pyChoice (q₁ :: q₂ :: rest) s) := by
  simp [portStep, h, h2, h3]

theorem portStep_events_quiet (args : Args) (env : Env) :
    transferPkgs (portStep args env).1 = [] ∧ transferPorts (portStep args env).1 = [] ∧
    transferTimeouts (portStep args env).1 = [] ∧ diagPrints (portStep args env).1 = [] ∧
    hasNetwork (portStep args env).1 = false := by
  unfold portStep
  cases h : optTruthy args.port with
  | some p =>
    simp [transferPkgs, transferPorts, transferTimeouts, diagPrints, hasNetwork]
  | none =>
    cases env.ports with
    | nil =>
      simp [transferPkgs, transferPorts, transferTimeouts, diagPrints, hasNetwork,
        transferPkgOf, transferPortOf, transferTimeoutOf, diagOf, isNetworkEvent]
    | cons p₁ tl =>
      cases tl with
      | nil =>
        simp [transferPkgs, transferPorts, transferTimeouts, diagPrints, hasNetwork,
          transferPkgOf, transferPortOf, transferTimeoutOf, diagOf, isNetworkEvent]
      | cons p₂ rest =>
        cases env.portPrompt <;>
          simp [transferPkgs, transferPorts, transferTimeouts, diagPrints, hasNetwork,
            transferPkgOf, transferPortOf, transferTimeoutOf, diagOf, isNetworkEvent]

theorem flashStep_records (env : Env) (pkgPath port : List Char) :
    transferPkgs (flashStep env pkgPath port).1 = [pkgPath] ∧
    transferPorts (flashStep env pkgPath port).1 = [port] ∧
    transferTimeouts (flashStep env pkgPath port).1 = [DFU_TIMEOUT_SECONDS] ∧
    hasNetwork (flashStep env pkgPath port).1 = false ∧
    hasEnumerate (flashStep env pkgPath port).1 = false ∧
    portPrompts (flashStep env pkgPath port).1 = [] := by
  unfold flashStep
  cases env.transfer with
  | completed rc =>
    by_cases h : rc = 0 <;>
      simp [h, transferPkgs, transferPorts, transferTimeouts, hasNetwork, hasEnumerate,
        portPrompts, transferPkgOf, transferPortOf, transferTimeoutOf, isNetworkEvent,
        isEnumerateEvent, portPromptOf]
  | timedOut =>
    simp [transferPkgs, transferPorts, transferTimeouts, hasNetwork, hasEnumerate,
      portPrompts, transferPkgOf, transferPortOf, transferTimeoutOf, isNetworkEvent,
      isEnumerateEvent, portPromptOf]
  | execFailed =>
    simp [transferPkgs, transferPorts, transferTimeouts, hasNetwork, hasEnumerate,
      portPrompts, transferPkgOf, transferPortOf, transferTimeoutOf, isNetworkEvent,
      isEnumerateEvent, portPromptOf]

theorem flashStep_timeout (env : Env) (pkgPath port : List Char)
    (h : env.transfer = TransferResult.timedOut) :
    flashStep env pkgPath port =
      ([Event.runTransfer pkgPath port DFU_TIMEOUT_SECONDS, Event.printDiag dfuTimeoutMsg],
        ExitOutcome.exitCode 1) := by
  simp [flashStep, h]

theorem flashStep_rejected (env : Env) (pkgPath port : List Char) (rc : Int)
    (h : env.transfer = TransferResult.completed rc) (hrc : rc ≠ 0) :
    flashStep env pkgPath port =
      ([Event.runTransfer pkgPath port DFU_TIMEOUT_SECONDS,
        Event.printDiag (dfuFailedMsg rc)], ExitOutcome.exitCode 1) := by
  simp [flashStep, h, hrc]

theorem tryBlock_interrupt (args : Args) (env : Env) (pkgPath : List Char)
    (h : env.bootPrompt = PromptInput.keyboardInterrupt) :
    tryBlock args env pkgPath = ([Event.promptBootloader], ExitOutcome.uncaughtInterrupt) := by
  simp [tryBlock, h]

theorem tryBlock_entered_none (args : Args) (env : Env) (pkgPath bs : List Char)
    (evs : List Event)
    (h : env.bootPrompt = PromptInput.entered bs) (hp : portStep args env = (evs, none)) :
    tryBlock args env pkgPath = (Event.promptBootloader :: evs, ExitOutcome.exitCode 1) := by
  simp [tryBlock, h, hp]

theorem tryBlock_entered_some (args : Args) (env : Env) (pkgPath bs : List Char)
    (evs : List Event) (q : List Char)
    (h : env.bootPrompt = PromptInput.entered bs) (hp : portStep args env = (evs, some q)) :
    tryBlock args env pkgPath =
      (Event.promptBootloader :: (evs ++ (flashStep env pkgPath q).1),
        (flashStep env pkgPath q).2) := by
  simp [tryBlock, h, hp]

theorem flashStep_shape (env : Env) (pkgPath q : List Char) :
    (flashStep env pkgPath q).1 = [Event.runTransfer pkgPath q DFU_TIMEOUT_SECONDS] ∨
    ∃ m, (flashStep env pkgPath q).1 =
      [Event.runTransfer pkgPath q DFU_TIMEOUT_SECONDS, Event.printDiag m] := by
  unfold flashStep
  cases ht : env.transfer with
  | completed rc => by_cases h : rc = 0 <;> simp [h]
  | timedOut => simp
  | execFailed => simp

theorem tryBlock_quiet (args : Args) (env : Env) (pkgPath : List Char) :
    (∀ pk ∈ transferPkgs (tryBlock args env pkgPath).1, pk = pkgPath) ∧
    hasNetwork (tryBlock args env pkgPath).1 = false := by
  unfold tryBlock
  cases hb : env.bootPrompt with
  | keyboardInterrupt => simp [transferPkgs, transferPkgOf, hasNetwork, isNetworkEvent]
  | entered bs =>
    unfold portStep
    cases hp : optTruthy args.port with
    | some p =>
      rcases flashStep_shape env pkgPath p with hf | ⟨m, hf⟩ <;>
        simp [hf, transferPkgs, transferPkgOf, hasNetwork, isNetworkEvent]
    | none =>
      cases hports : env.ports with
      | nil => simp [transferPkgs, transferPkgOf, hasNetwork, isNetworkEvent]
      | cons p₁ tl =>
        cases tl with
        | nil =>
          rcases flashStep_shape env pkgPath p₁ with hf | ⟨m, hf⟩ <;>
            simp [hf, transferPkgs, transferPkgOf, hasNetwork, isNetworkEvent]
        | cons p₂ rest =>
          cases hpp : env.portPrompt with
          | keyboardInterrupt =>
            simp [transferPkgs, transferPkgOf, hasNetwork, isNetworkEvent]
          | entered s =>
            cases hc : pyChoice (p₁ :: p₂ :: rest) s with
            | none => simp [hc, transferPkgs, transferPkgOf, hasNetwork, isNetworkEvent]
            | some q =>
              rcases flashStep_shape env pkgPath q with hf | ⟨m, hf⟩ <;>
                simp [hc, hf, transferPkgs, transferPkgOf, hasNetwork, isNetworkEvent]

theorem mainModel_resolved (args : Args) (env : Env) (h : resolves args env) :
    ∃ pre pkgPath,
      (mainModel args env).events = pre ++ (tryBlock args env pkgPath).1 ∧
      (mainModel args env).exit = (tryBlock args env pkgPath).2 ∧
      preTransferFree pre := by
  obtain ⟨htool, hcase⟩ := h
  rcases hcase with ⟨p, hp, hex⟩ | ⟨hnone, tag, assets, a, hf, hfind, hdl⟩
  · refine ⟨[], p, ?_, ?_, ?_⟩
    · simp [mainModel, htool, hp, hex]
    · simp [mainModel, htool, hp, hex]
    · simp [preTransferFree, transferPkgs, transferPorts, transferTimeouts, diagPrints,
        nearMissPrints, hasEnumerate, portPrompts]
  · refine ⟨[Event.networkFetch, Event.networkDownload], tmpDirPath ++ a.name, ?_, ?_, ?_⟩
    · simp [mainModel, htool, hnone, download_dfu_package, hf, hfind, hdl]
    · simp [mainModel, htool, hnone, download_dfu_package, hf, hfind, hdl]
    · simp [preTransferFree, transferPkgs, transferPorts, transferTimeouts, diagPrints,
        nearMissPrints, hasEnumerate, portPrompts, transferPkgOf, transferPortOf,
        transferTimeoutOf, diagOf, nearMissOf, portPromptOf, isEnumerateEvent]

theorem findAsset_spec (board : Board) :
    ∀ (assets : List Asset) (a : Asset), findAsset board assets = some a →
      assetMatches board a = true ∧
      ∃ pre post, assets = pre ++ a :: post ∧ ∀ b ∈ pre, assetMatches board b = false := by
  intro assets
  induction assets with
  | nil => intro a h; simp [findAsset] at h
  | cons hd tl ih =>
    intro a h
    by_cases hm : assetMatches board hd
    · rw [findAsset, if_pos hm] at h
      obtain rfl : hd = a := by injection h
      exact ⟨hm, [], tl, rfl, by simp⟩
    · rw [findAsset, if_neg hm] at h
      obtain ⟨h1, pre, post, heq, hpre⟩ := ih a h
      refine ⟨h1, hd :: pre, post, by simp [heq], ?_⟩
      intro b hb
      rcases List.mem_cons.mp hb with h2 | h2
      · rw [h2]; simpa using hm
      · exact hpre b h2

theorem dfu_msgs_distinct (rc : Int) : dfuTimeoutMsg ≠ dfuFailedMsg rc := by
  intro h
  have h1 : dfuTimeoutMsg[14]? = some 't' := by decide
  have h2 : (dfuFailedMsg rc)[14]? = some 'f' := by
    unfold dfuFailedMsg
    rw [List.getElem?_append_left (by decide)]
    decide
  rw [h, h2] at h1
  exact absurd h1 (by decide)

theorem pyIndex_neg {α : Type} (xs : List α) (i : Int) (hneg : i < 0)
    (hmag : i.natAbs ≤ xs.length) :
    ∃ q, xs[xs.length - i.natAbs]? = some q ∧ pyIndex xs i = some q := by
  have h0 : ¬ (0 ≤ i) := by omega
  have hlt : xs.length - i.natAbs < xs.length := by omega
  refine ⟨xs.get ⟨xs.length - i.natAbs, hlt⟩, ?_, ?_⟩
  · rw [List.getElem?_eq_getElem hlt]
    rfl
  · simp [pyIndex, h0, hmag, List.getElem?_eq_getElem hlt]

/-- Claim C1: the claim states that whenever the temporary download
directory is created (no `--pkg` override), it no longer exists on every
exit path, including failed resolution.  The code violates this: the
directory is created (line 478) and `download_dfu_package` is called
(line 479) BEFORE the `try` at line 481, and every resolution failure
calls `sys.exit(1)` inside `download_dfu_package`, so the `finally`
cleanup (lines 587-589) never runs on those paths.  This theorem
evaluates the model: the directory is leaked under a metadata fetch
error, a missing `requests` library, a no-matching-asset release, and a
failed content download — while a successful run does remove it. -/
theorem C1_resolution_failure_leaks_temp_dir :
    ((mainModel argsNoOverride envFetchError).tmpDirCreated = true ∧
      (mainModel argsNoOverride envFetchError).tmpDirRemoved = false ∧
      (mainModel argsNoOverride envFetchError).exit = ExitOutcome.exitCode 1) ∧
    ((mainModel argsNoOverride envImportError).tmpDirCreated = true ∧
      (mainModel argsNoOverride envImportError).tmpDirRemoved = false) ∧
    ((mainModel argsNoOverride envNoMatch).tmpDirCreated = true ∧
      (mainModel argsNoOverride envNoMatch).tmpDirRemoved = false) ∧
    ((mainModel argsNoOverride envDownloadFail).tmpDirCreated = true ∧
      (mainModel argsNoOverride envDownloadFail).tmpDirRemoved = false) ∧
    ((mainModel argsNoOverride baseEnv).exit = ExitOutcome.exitCode 0 ∧
      (mainModel argsNoOverride baseEnv).tmpDirRemoved = true) := by decide

/-- Claim C2: the resolver scans the release assets in listed order and
returns the first whose name contains the requested board's fragment and
ends with `.zip`; consequently a selected asset always carries the
requested board's fragment, and in particular the Standard scenario
asset is never selected for a Sense run, and conversely. -/
theorem C2_resolver_first_match (board : Board) (assets : List Asset) (a : Asset)
    (h : findAsset board assets = some a) :
    (strContains (BOARD_ASSET_NAMES board) a.name = true ∧
      strEndsWith ((".zip").toList) a.name = true) ∧
    (∃ pre post, assets = pre ++ a :: post ∧ ∀ b ∈ pre, assetMatches board b = false) ∧
    (board = Board.sense → a.name ≠ stdUf2Name) ∧
    (board = Board.standard → a.name ≠ senseUf2Name) := by
  obtain ⟨hm, hfirst⟩ := findAsset_spec board assets a h
  have hc : strContains (BOARD_ASSET_NAMES board) a.name = true ∧
      strEndsWith ((".zip").toList) a.name = true := by
    have hm2 := hm
    simp only [assetMatches, Bool.and_eq_true] at hm2
    exact hm2
  refine ⟨hc, hfirst, ?_, ?_⟩
  · intro hb hn
    subst hb
    rw [hn] at hc
    exact absurd hc.1 (by decide)
  · intro hb hn
    subst hb
    rw [hn] at hc
    exact absurd hc.1 (by decide)

/-- Witness for C2: with the release listing the Standard `.uf2` asset
first and the Sense `.zip` asset second, the resolver picks the Sense
asset, and the first-match characterization holds there. -/
theorem C2_witness :
    (strContains (BOARD_ASSET_NAMES Board.sense) senseZipAsset.name = true ∧
      strEndsWith ((".zip").toList) senseZipAsset.name = true) ∧
    (∃ pre post, [stdUf2Asset, senseZipAsset] = pre ++ senseZipAsset :: post ∧
      ∀ b ∈ pre, assetMatches Board.sense b = false) ∧
    (Board.sense = Board.sense → senseZipAsset.name ≠ stdUf2Name) ∧
    (Board.sense = Board.standard → senseZipAsset.name ≠ senseUf2Name) :=
  C2_resolver_first_match Board.sense [stdUf2Asset, senseZipAsset] senseZipAsset (by decide)

/-- Claim C3: when adafruit-nrfutil is absent, step 1 of `main` exits
with status 1 before any network request, before the package is resolved
or downloaded (no temp dir is even created), and before any transfer. -/
theorem C3_missing_tool_fails_before_everything (args : Args) (env : Env)
    (h : env.nrfutilFound = false) :
    (mainModel args env).exit = ExitOutcome.exitCode 1 ∧
    hasNetwork (mainModel args env).events = false ∧
    transferPkgs (mainModel args env).events = [] ∧
    (mainModel args env).tmpDirCreated = false := by
  simp [mainModel, h, hasNetwork, transferPkgs]

/-- Witness for C3 at a concrete no-tool environment. -/
theorem C3_witness :
    (mainModel argsNoOverride envNoTool).exit = ExitOutcome.exitCode 1 ∧
    hasNetwork (mainModel argsNoOverride envNoTool).events = false ∧
    transferPkgs (mainModel argsNoOverride envNoTool).events = [] ∧
    (mainModel argsNoOverride envNoTool).tmpDirCreated = false :=
  C3_missing_tool_fails_before_everything argsNoOverride envNoTool rfl

/-- Claim C4: with a (truthy) local `--pkg` path, a nonexistent path
exits 1 with no network call and no temp dir; an existing path is used
verbatim — no network call, no temp dir, and every package path handed
to the flashing subprocess is exactly the override.  The path `p` is
arbitrary (no condition on its suffix), so no method-suffix
re-validation happens. -/
theorem C4_local_override (args : Args) (env : Env) (p : List Char)
    (hp : args.pkg = some p) (hne : p ≠ []) :
    (env.pkgExists p = false →
      (mainModel args env).exit = ExitOutcome.exitCode 1 ∧
      hasNetwork (mainModel args env).events = false ∧
      (mainModel args env).tmpDirCreated = false) ∧
    (env.pkgExists p = true →
      hasNetwork (mainModel args env).events = false ∧
      (mainModel args env).tmpDirCreated = false ∧
      ∀ q ∈ transferPkgs (mainModel args env).events, q = p) := by
  have htr : optTruthy args.pkg = some p := by rw [hp]; exact optTruthy_of_ne p hne
  cases htool : env.nrfutilFound with
  | false =>
    constructor <;> intro hex <;> simp [mainModel, htool, hasNetwork, transferPkgs]
  | true =>
    constructor
    · intro hex
      simp [mainModel, htool, htr, hex, hasNetwork, transferPkgs]
    · intro hex
      have hmm : mainModel args env =
          { events := (tryBlock args env p).1, exit := (tryBlock args env p).2,
            tmpDirCreated := false, tmpDirRemoved := false } := by
        simp [mainModel, htool, htr, hex]
      rw [hmm]
      exact ⟨(tryBlock_quiet args env p).2, rfl, (tryBlock_quiet args env p).1⟩

/-- Witness for C4 at a concrete local-package run whose override does
not carry the `.zip` suffix. -/
theorem C4_witness :
    (baseEnv.pkgExists pkgBinPath = false →
      (mainModel argsLocalPkg baseEnv).exit = ExitOutcome.exitCode 1 ∧
      hasNetwork (mainModel argsLocalPkg baseEnv).events = false ∧
      (mainModel argsLocalPkg baseEnv).tmpDirCreated = false) ∧
    (baseEnv.pkgExists pkgBinPath = true →
      hasNetwork (mainModel argsLocalPkg baseEnv).events = false ∧
      (mainModel argsLocalPkg baseEnv).tmpDirCreated = false ∧
      ∀ q ∈ transferPkgs (mainModel argsLocalPkg baseEnv).events, q = pkgBinPath) :=
  C4_local_override argsLocalPkg baseEnv pkgBinPath rfl (by decide)

/-- Claim C5 counterexample: the claim requires a user interrupt during
an interactive wait to exit with a canceled status distinct from the
FAILED status.  But Ctrl+C at the serial-port selection prompt is caught
(line 530) and calls `sys.exit(1)` — exactly the status of every FAILED
outcome (e.g. a rejected transfer) — so no distinct canceled status
exists.  The temp-dir cleanup half of the claim does hold there. -/
theorem C5_counterexample :
    (mainModel argsNoOverride envCancelAtPortPrompt).exit = ExitOutcome.exitCode 1 ∧
    (mainModel argsNoOverride envTransferFailed).exit = ExitOutcome.exitCode 1 ∧
    (mainModel argsNoOverride envCancelAtPortPrompt).exit =
      (mainModel argsNoOverride envTransferFailed).exit ∧
    (mainModel argsNoOverride envCancelAtPortPrompt).tmpDirRemoved = true := by decide

/-- Claim C5 (amended): an interrupt during either interactive wait does
remove the already-created temporary directory (the `finally` at lines
587-589 runs), but the exit status is not a distinct canceled one: at
the enter-bootloader prompt the KeyboardInterrupt propagates uncaught,
while at the port-selection prompt it is caught and the process exits
with status 1 — the same status used for FAILED outcomes. -/
theorem C5_amended_interrupt_cleanup (args : Args) (env : Env)
    (tag : List Char) (assets : List Asset) (a : Asset)
    (htool : env.nrfutilFound = true) (hpkg : optTruthy args.pkg = none)
    (hf : env.fetch = FetchResult.ok tag assets)
    (hfind : findAsset args.board assets = some a) (hdl : env.downloadOk = true) :
    (env.bootPrompt = PromptInput.keyboardInterrupt →
      (mainModel args env).exit = ExitOutcome.uncaughtInterrupt ∧
      (mainModel args env).tmpDirCreated = true ∧
      (mainModel args env).tmpDirRemoved = true) ∧
    (∀ bs q₁ q₂ rest, env.bootPrompt = PromptInput.entered bs →
      optTruthy args.port = none → env.ports = q₁ :: q₂ :: rest →
      env.portPrompt = PromptInput.keyboardInterrupt →
      (mainModel args env).exit = ExitOutcome.exitCode 1 ∧
      (mainModel args env).tmpDirCreated = true ∧
      (mainModel args env).tmpDirRemoved = true) := by
  have hmm : mainModel args env =
      { events := [Event.networkFetch, Event.networkDownload] ++
          (tryBlock args env (tmpDirPath ++ a.name)).1,
        exit := (tryBlock args env (tmpDirPath ++ a.name)).2,
        tmpDirCreated := true, tmpDirRemoved := true } := by
    simp [mainModel, htool, hpkg, download_dfu_package, hf, hfind, hdl]
  constructor
  · intro hb
    rw [hmm, tryBlock_interrupt args env (tmpDirPath ++ a.name) hb]
    exact ⟨rfl, rfl, rfl⟩
  · intro bs q₁ q₂ rest hb hpn hpl hpp
    have hps := portStep_multi_interrupt args env q₁ q₂ rest hpn hpl hpp
    have htb := tryBlock_entered_none args env (tmpDirPath ++ a.name) bs
      [Event.enumeratePorts, Event.promptPortSelection (q₁ :: q₂ :: rest)] hb hps
    rw [hmm, htb]
    exact ⟨rfl, rfl, rfl⟩

/-- Witness for the amended C5 at a concrete downloaded-package run with
a Ctrl+C at the port-selection prompt. -/
theorem C5_amended_witness :
    (envCancelAtPortPrompt.bootPrompt = PromptInput.keyboardInterrupt →
      (mainModel argsNoOverride envCancelAtPortPrompt).exit = ExitOutcome.uncaughtInterrupt ∧
      (mainModel argsNoOverride envCancelAtPortPrompt).tmpDirCreated = true ∧
      (mainModel argsNoOverride envCancelAtPortPrompt).tmpDirRemoved = true) ∧
    (∀ bs q₁ q₂ rest,
      envCancelAtPortPrompt.bootPrompt = PromptInput.entered bs →
      optTruthy argsNoOverride.port = none →
      envCancelAtPortPrompt.ports = q₁ :: q₂ :: rest →
      envCancelAtPortPrompt.portPrompt = PromptInput.keyboardInterrupt →
      (mainModel argsNoOverride envCancelAtPortPrompt).exit = ExitOutcome.exitCode 1 ∧
      (mainModel argsNoOverride envCancelAtPortPrompt).tmpDirCreated = true ∧
      (mainModel argsNoOverride envCancelAtPortPrompt).tmpDirRemoved = true) :=
  C5_amended_interrupt_cleanup argsNoOverride envCancelAtPortPrompt
    (("0.9.2").toList) [senseZipAsset] senseZipAsset rfl rfl rfl (by decide) rfl

/-- Claim C6: Serial port selection.  A (truthy) user-supplied port is
used with no enumeration; otherwise zero candidates exit 1 with no
prompt and no transfer, one candidate is auto-selected with no prompt,
and several candidates present the indexed list and require a selection:
Ctrl+C or an invalid entry exits 1 without transferring, and a valid
entry transfers on exactly the selected port. -/
theorem C6_serial_port_selection (args : Args) (env : Env) (bs : List Char)
    (hres : resolves args env) (hboot : env.bootPrompt = PromptInput.entered bs) :
    (∀ q, optTruthy args.port = some q →
      hasEnumerate (mainModel args env).events = false ∧
      transferPorts (mainModel args env).events = [q]) ∧
    (optTruthy args.port = none → env.ports = [] →
      (mainModel args env).exit = ExitOutcome.exitCode 1 ∧
      transferPorts (mainModel args env).events = [] ∧
      portPrompts (mainModel args env).events = []) ∧
    (∀ q, optTruthy args.port = none → env.ports = [q] →
      portPrompts (mainModel args env).events = [] ∧
      transferPorts (mainModel args env).events = [q]) ∧
    (∀ q₁ q₂ rest, optTruthy args.port = none → env.ports = q₁ :: q₂ :: rest →
      portPrompts (mainModel args env).events = [q₁ :: q₂ :: rest] ∧
      (env.portPrompt = PromptInput.keyboardInterrupt →
        (mainModel args env).exit = ExitOutcome.exitCode 1 ∧
        transferPorts (mainModel args env).events = []) ∧
      (∀ s, env.portPrompt = PromptInput.entered s →
        pyChoice (q₁ :: q₂ :: rest) s = none →
        (mainModel args env).exit = ExitOutcome.exitCode 1 ∧
        transferPorts (mainModel args env).events = []) ∧
      (∀ s q, env.portPrompt = PromptInput.entered s →
        pyChoice (q₁ :: q₂ :: rest) s = some q →
        transferPorts (mainModel args env).events = [q])) := by
  obtain ⟨pre, pth, hev, hex, hqt⟩ := mainModel_resolved args env hres
  obtain ⟨hqpk, hqpt, hqtt, hqdg, hqnm, hqen, hqpp⟩ := hqt
  refine ⟨?_, ?_, ?_, ?_⟩
  · intro q hq
    have hps := portStep_supplied args env q hq
    have htb := tryBlock_entered_some args env pth bs [] q hboot hps
    constructor
    · rw [hev, htb, hasEnumerate_append, hqen]
      have henum := (flashStep_records env pth q).2.2.2.2.1
      simp [hasEnumerate, isEnumerateEvent] at henum ⊢
      exact henum
    · rw [hev, htb, transferPorts_append, hqpt]
      have hpt := (flashStep_records env pth q).2.1
      simp [transferPorts, transferPortOf] at hpt ⊢
      exact hpt
  · intro hq1 hq2
    have hps := portStep_none_nil args env hq1 hq2
    have htb := tryBlock_entered_none args env pth bs [Event.enumeratePorts] hboot hps
    refine ⟨by rw [hex, htb], ?_, ?_⟩
    · rw [hev, htb, transferPorts_append, hqpt]
      simp [transferPorts, transferPortOf]
    · rw [hev, htb, portPrompts_append, hqpp]
      simp [portPrompts, portPromptOf]
  · intro q hq1 hq2
    have hps := portStep_none_single args env q hq1 hq2
    have htb := tryBlock_entered_some args env pth bs [Event.enumeratePorts] q hboot hps
    constructor
    · rw [hev, htb, portPrompts_append, hqpp]
      have hpp := (flashStep_records env pth q).2.2.2.2.2
      simp [portPrompts, portPromptOf] at hpp ⊢
      exact hpp
    · rw [hev, htb, transferPorts_append, hqpt]
      have hpt := (flashStep_records env pth q).2.1
      simp [transferPorts, transferPortOf] at hpt ⊢
      exact hpt
  · intro q₁ q₂ rest hq1 hq2
    refine ⟨?_, ?_, ?_, ?_⟩
    · cases hpp : env.portPrompt with
      | keyboardInterrupt =>
        have hps := portStep_multi_interrupt args env q₁ q₂ rest hq1 hq2 hpp
        have htb := tryBlock_entered_none args env pth bs
          [Event.enumeratePorts, Event.promptPortSelection (q₁ :: q₂ :: rest)] hboot hps
        rw [hev, htb, portPrompts_append, hqpp]
        simp [portPrompts, portPromptOf]
      | entered s =>
        have hps := portStep_multi_entered args env q₁ q₂ rest s hq1 hq2 hpp
        cases hc : pyChoice (q₁ :: q₂ :: rest) s with
        | none =>
          rw [hc] at hps
          have htb := tryBlock_entered_none args env pth bs
            [Event.enumeratePorts, Event.promptPortSelection (q₁ :: q₂ :: rest)] hboot hps
          rw [hev, htb, portPrompts_append, hqpp]
          simp [portPrompts, portPromptOf]
        | some q =>
          rw [hc] at hps
          have htb := tryBlock_entered_some args env pth bs
            [Event.enumeratePorts, Event.promptPortSelection (q₁ :: q₂ :: rest)] q hboot hps
          rw [hev, htb, portPrompts_append, hqpp]
          have hpp2 := (flashStep_records env pth q).2.2.2.2.2
          simp [portPrompts, portPromptOf] at hpp2 ⊢
          exact hpp2
    · intro hpp
      have hps := portStep_multi_interrupt args env q₁ q₂ rest hq1 hq2 hpp
      have htb := tryBlock_entered_none args env pth bs
        [Event.enumeratePorts, Event.promptPortSelection (q₁ :: q₂ :: rest)] hboot hps
      refine ⟨by rw [hex, htb], ?_⟩
      rw [hev, htb, transferPorts_append, hqpt]
      simp [transferPorts, transferPortOf]
    · intro s hpp hc
      have hps := portStep_multi_entered args env q₁ q₂ rest s hq1 hq2 hpp
      rw [hc] at hps
      have htb := tryBlock_entered_none args env pth bs
        [Event.enumeratePorts, Event.promptPortSelection (q₁ :: q₂ :: rest)] hboot hps
      refine ⟨by rw [hex, htb], ?_⟩
      rw [hev, htb, transferPorts_append, hqpt]
      simp [transferPorts, transferPortOf]
    · intro s q hpp hc
      have hps := portStep_multi_entered args env q₁ q₂ rest s hq1 hq2 hpp
      rw [hc] at hps
      have htb := tryBlock_entered_some args env pth bs
        [Event.enumeratePorts, Event.promptPortSelection (q₁ :: q₂ :: rest)] q hboot hps
      rw [hev, htb, transferPorts_append, hqpt]
      have hpt := (flashStep_records env pth q).2.1
      simp [transferPorts, transferPortOf] at hpt ⊢
      exact hpt

/-- Witness for C6 at a concrete two-port run where the user types `1`
and the second port is selected. -/
theorem C6_witness :
    (∀ q, optTruthy argsLocalPkg.port = some q →
      hasEnumerate (mainModel argsLocalPkg envTwoPortsPickSecond).events = false ∧
      transferPorts (mainModel argsLocalPkg envTwoPortsPickSecond).events = [q]) ∧
    (optTruthy argsLocalPkg.port = none → envTwoPortsPickSecond.ports = [] →
      (mainModel argsLocalPkg envTwoPortsPickSecond).exit = ExitOutcome.exitCode 1 ∧
      transferPorts (mainModel argsLocalPkg envTwoPortsPickSecond).events = [] ∧
      portPrompts (mainModel argsLocalPkg envTwoPortsPickSecond).events = []) ∧
    (∀ q, optTruthy argsLocalPkg.port = none → envTwoPortsPickSecond.ports = [q] →
      portPrompts (mainModel argsLocalPkg envTwoPortsPickSecond).events = [] ∧
      transferPorts (mainModel argsLocalPkg envTwoPortsPickSecond).events = [q]) ∧
    (∀ q₁ q₂ rest, optTruthy argsLocalPkg.port = none →
      envTwoPortsPickSecond.ports = q₁ :: q₂ :: rest →
      portPrompts (mainModel argsLocalPkg envTwoPortsPickSecond).events = [q₁ :: q₂ :: rest] ∧
      (envTwoPortsPickSecond.portPrompt = PromptInput.keyboardInterrupt →
        (mainModel argsLocalPkg envTwoPortsPickSecond).exit = ExitOutcome.exitCode 1 ∧
        transferPorts (mainModel argsLocalPkg envTwoPortsPickSecond).events = []) ∧
      (∀ s, envTwoPortsPickSecond.portPrompt = PromptInput.entered s →
        pyChoice (q₁ :: q₂ :: rest) s = none →
        (mainModel argsLocalPkg envTwoPortsPickSecond).exit = ExitOutcome.exitCode 1 ∧
        transferPorts (mainModel argsLocalPkg envTwoPortsPickSecond).events = []) ∧
      (∀ s q, envTwoPortsPickSecond.portPrompt = PromptInput.entered s →
        pyChoice (q₁ :: q₂ :: rest) s = some q →
        transferPorts (mainModel argsLocalPkg envTwoPortsPickSecond).events = [q])) :=
  C6_serial_port_selection argsLocalPkg envTwoPortsPickSecond []
    ⟨rfl, Or.inl ⟨pkgBinPath, rfl, rfl⟩⟩ rfl

/-- Claim C7: every flashing subprocess invocation carries the fixed
120-second wall-clock bound; a timeout prints the dedicated timeout
diagnostic and exits 1, a nonzero subprocess exit prints the
exit-code diagnostic and exits 1, and the two diagnostics differ for
every possible return code. -/
theorem C7_timeout_vs_rejected (args : Args) (env : Env) (bs q : List Char)
    (hres : resolves args env) (hboot : env.bootPrompt = PromptInput.entered bs)
    (hq : optTruthy args.port = some q) :
    transferTimeouts (mainModel args env).events = [DFU_TIMEOUT_SECONDS] ∧
    (env.transfer = TransferResult.timedOut →
      (mainModel args env).exit = ExitOutcome.exitCode 1 ∧
      diagPrints (mainModel args env).events = [dfuTimeoutMsg]) ∧
    (∀ rc, env.transfer = TransferResult.completed rc → rc ≠ 0 →
      (mainModel args env).exit = ExitOutcome.exitCode 1 ∧
      diagPrints (mainModel args env).events = [dfuFailedMsg rc]) ∧
    (∀ rc, dfuTimeoutMsg ≠ dfuFailedMsg rc) := by
  obtain ⟨pre, pth, hev, hex, hqt⟩ := mainModel_resolved args env hres
  obtain ⟨hqpk, hqpt, hqtt, hqdg, hqnm, hqen, hqpp⟩ := hqt
  have hps := portStep_supplied args env q hq
  have htb := tryBlock_entered_some args env pth bs [] q hboot hps
  refine ⟨?_, ?_, ?_, dfu_msgs_distinct⟩
  · rw [hev, htb, transferTimeouts_append, hqtt]
    have h := (flashStep_records env pth q).2.2.1
    simp [transferTimeouts, transferTimeoutOf] at h ⊢
    exact h
  · intro ht
    have hfl := flashStep_timeout env pth q ht
    refine ⟨by rw [hex, htb, hfl], ?_⟩
    rw [hev, htb, hfl, diagPrints_append, hqdg]
    simp [diagPrints, diagOf]
  · intro rc ht hrc
    have hfl := flashStep_rejected env pth q rc ht hrc
    refine ⟨by rw [hex, htb, hfl], ?_⟩
    rw [hev, htb, hfl, diagPrints_append, hqdg]
    simp [diagPrints, diagOf]

/-- Witness for C7 at a concrete timed-out Serial transfer. -/
theorem C7_witness :
    transferTimeouts (mainModel argsPkgAndPort envTimeout).events = [DFU_TIMEOUT_SECONDS] ∧
    (envTimeout.transfer = TransferResult.timedOut →
      (mainModel argsPkgAndPort envTimeout).exit = ExitOutcome.exitCode 1 ∧
      diagPrints (mainModel argsPkgAndPort envTimeout).events = [dfuTimeoutMsg]) ∧
    (∀ rc, envTimeout.transfer = TransferResult.completed rc → rc ≠ 0 →
      (mainModel argsPkgAndPort envTimeout).exit = ExitOutcome.exitCode 1 ∧
      diagPrints (mainModel argsPkgAndPort envTimeout).events = [dfuFailedMsg rc]) ∧
    (∀ rc, dfuTimeoutMsg ≠ dfuFailedMsg rc) :=
  C7_timeout_vs_rejected argsPkgAndPort envTimeout [] (("COM3").toList)
    ⟨rfl, Or.inl ⟨pkgBinPath, rfl, rfl⟩⟩ rfl rfl

/-- Claim C8 counterexample: with board=Sense and a release containing
only the Standard `.uf2` asset, resolution fails and the diagnostic
lists that Standard asset — an asset of a different board token whose
name does not contain the requested (Sense) board fragment — because
the code filters near-misses by the family token `xiao`, not by the
requested board's token. -/
theorem C8_counterexample :
    nearMissPrints (mainModel argsNoOverride envNoMatch).events = [[stdUf2Name]] ∧
    strContains (BOARD_ASSET_NAMES Board.sense) stdUf2Name = false ∧
    strContains (BOARD_ASSET_NAMES Board.standard) stdUf2Name = true ∧
    (mainModel argsNoOverride envNoMatch).exit = ExitOutcome.exitCode 1 := by decide

/-- Claim C8 (amended): when no asset matches, resolution fails with
exit 1 and the diagnostic lists exactly the assets whose lowercased name
contains the family token `xiao` — which can include assets of the other
board variant — and never assets without that token. -/
theorem C8_amended_near_misses (args : Args) (env : Env) (tag : List Char)
    (assets : List Asset)
    (htool : env.nrfutilFound = true) (hpkg : optTruthy args.pkg = none)
    (hf : env.fetch = FetchResult.ok tag assets)
    (hnone : findAsset args.board assets = none) :
    (mainModel args env).exit = ExitOutcome.exitCode 1 ∧
    nearMissPrints (mainModel args env).events =
      [(assets.filter mentionsXiao).map Asset.name] ∧
    (mainModel args env).tmpDirCreated = true := by
  simp [mainModel, htool, hpkg, download_dfu_package, hf, hnone, nearMissPrints, nearMissOf,
    nearMisses]

/-- Witness for the amended C8 at the concrete no-match release. -/
theorem C8_amended_witness :
    (mainModel argsNoOverride envNoMatch).exit = ExitOutcome.exitCode 1 ∧
    nearMissPrints (mainModel argsNoOverride envNoMatch).events =
      [(List.filter mentionsXiao [stdUf2Asset]).map Asset.name] ∧
    (mainModel argsNoOverride envNoMatch).tmpDirCreated = true :=
  C8_amended_near_misses argsNoOverride envNoMatch (("1.2.3").toList) [stdUf2Asset]
    rfl rfl rfl (by decide)

/-- Claim C9: at the multi-port selection prompt, a negative integer
whose magnitude is at most the number of listed ports is accepted
(Python negative indexing in `ports[int(choice)]`, line 526) and
selects counting from the end: the transfer runs on the port at index
`length - |i|`; in particular `-1` selects the last listed port. -/
theorem C9_negative_port_selection (args : Args) (env : Env) (bs s q₁ q₂ : List Char)
    (rest : List (List Char)) (i : Int)
    (hres : resolves args env) (hboot : env.bootPrompt = PromptInput.entered bs)
    (hport : optTruthy args.port = none) (hports : env.ports = q₁ :: q₂ :: rest)
    (hin : env.portPrompt = PromptInput.entered s)
    (hi : pyInt (pyStrip s) = some i) (hneg : i < 0)
    (hmag : i.natAbs ≤ (q₁ :: q₂ :: rest).length) :
    ∃ q, (q₁ :: q₂ :: rest)[(q₁ :: q₂ :: rest).length - i.natAbs]? = some q ∧
      transferPorts (mainModel args env).events = [q] := by
  obtain ⟨q, hgq, hpi⟩ := pyIndex_neg (q₁ :: q₂ :: rest) i hneg hmag
  have hchoice : pyChoice (q₁ :: q₂ :: rest) s = some q := by
    simp [pyChoice, hi, hpi]
  obtain ⟨pre, pth, hev, hex, hqt⟩ := mainModel_resolved args env hres
  obtain ⟨hqpk, hqpt, hqtt, hqdg, hqnm, hqen, hqpp⟩ := hqt
  have hps := portStep_multi_entered args env q₁ q₂ rest s hport hports hin
  rw [hchoice] at hps
  have htb := tryBlock_entered_some args env pth bs
    [Event.enumeratePorts, Event.promptPortSelection (q₁ :: q₂ :: rest)] q hboot hps
  refine ⟨q, hgq, ?_⟩
  rw [hev, htb, transferPorts_append, hqpt]
  have hpt := (flashStep_records env pth q).2.1
  simp [transferPorts, transferPortOf] at hpt ⊢
  exact hpt

/-- Witness for C9: with two listed ports and input `-1`, the run
transfers on the last listed port. -/
theorem C9_witness :
    ∃ q, ([("/dev/ttyACM0").toList, ("/dev/ttyACM1").toList])[
        ([("/dev/ttyACM0").toList, ("/dev/ttyACM1").toList]).length -
          (Int.negSucc 0).natAbs]? = some q ∧
      transferPorts (mainModel argsLocalPkg envTwoPortsPickLast).events = [q] :=
  C9_negative_port_selection argsLocalPkg envTwoPortsPickLast [] (("-1").toList)
    (("/dev/ttyACM0").toList) (("/dev/ttyACM1").toList) [] (Int.negSucc 0)
    ⟨rfl, Or.inl ⟨pkgBinPath, rfl, rfl⟩⟩ rfl rfl rfl rfl (by decide) (by decide) (by decide)

/-- Claim C10: when `--board` is absent, argparse supplies the default
`sense`, so the run is identical to an explicit `--board sense` run, and
the Sense name fragment used for asset matching is
`xiao_nrf52840_ble_sense_bootloader`. -/
theorem C10_default_board_is_sense (port pkg : Option (List Char)) (env : Env) :
    parseBoardArg none = some Board.sense ∧
    runWithBoardArg none port pkg env = runWithBoardArg (some (("sense").toList)) port pkg env ∧
    BOARD_ASSET_NAMES Board.sense = ("xiao_nrf52840_ble_sense_bootloader").toList :=
  ⟨rfl, rfl, rfl⟩

end UpdateBootloader
